import Mathlib

/-!
Shallow embedding of the paracord client library (orchestrator, rate-limit
structures, RPC rate-limit service) for checking its natural-language
specification against the code.

Conventions of the embedding:
* JS `undefined`-able fields become `Option`; JS numbers become `Int`/`Nat`.
* Wall-clock reads (`new Date().getTime()`) become an explicit `now : Int`
  parameter threaded to each function that reads the clock.
* The orchestrator (`Paracord`) becomes a record `PState`; methods become
  functions `PState → ... → PState`.
* `this.emit(name, args)` of the two startup events is recorded in an
  `events : List PEvent` field of the state; `this.log` calls (which only
  emit DEBUG records) are modelled as no-ops on the recorded event list.
* JS comparison semantics against `undefined` are kept: a `<`/`<=`
  comparison with an `undefined` operand is `false` (NaN propagation).
-/

/-- `SECOND_IN_MILLISECONDS` from src/constants.js. -/
def SECOND_IN_MILLISECONDS : Int := 1000

/-- `MINUTE_IN_MILLISECONDS` from src/constants.js. -/
def MINUTE_IN_MILLISECONDS : Int := 60 * SECOND_IN_MILLISECONDS

/-- `API_RATE_LIMIT_EXPIRE_AFTER_MILLISECONDS` from src/constants.js. -/
def API_RATE_LIMIT_EXPIRE_AFTER_MILLISECONDS : Int := 5 * MINUTE_IN_MILLISECONDS

/-- Events emitted by the orchestrator that the startup claims are about.
`shardStartupComplete sh forced` models `emit('SHARD_STARTUP_COMPLETE', { shard, forced })`
(the `shard` argument is read from `this.startingGateway`, hence `Option`);
`paracordStartupComplete` models `emit('PARACORD_STARTUP_COMPLETE')`. -/
inductive PEvent where
  | shardStartupComplete (shard : Option Nat) (forced : Bool)
  | paracordStartupComplete
  deriving DecidableEq, Repr

/-- The fields of the `Paracord` class (src/unnamed/part_001) that the
claims touch.  Gateways are identified by their shard id (`Nat`). -/
structure PState where
  preventLogin : Bool
  gatewayLoginQueue : List Nat
  startingGateway : Option Nat
  safeGatewayIdentifyTimestamp : Option Int
  unavailableGuildTolerance : Option Int
  unavailableGuildWait : Option Int
  guildWaitCount : Option Int
  gatewayWaitCount : Option Int
  lastGuildTimestamp : Option Int
  allowEventsDuringStartup : Bool
  unavailableGuildsIntervalActive : Bool
  events : List PEvent
  deriving DecidableEq, Repr

/-- A convenient all-clear base state for concrete evaluations. -/
def PState.base : PState :=
  { preventLogin := false
    gatewayLoginQueue := []
    startingGateway := none
    safeGatewayIdentifyTimestamp := none
    unavailableGuildTolerance := none
    unavailableGuildWait := none
    guildWaitCount := none
    gatewayWaitCount := none
    lastGuildTimestamp := none
    allowEventsDuringStartup := false
    unavailableGuildsIntervalActive := false
    events := [] }

/-- `Paracord.clearStartingShardState` (part_001 lines 566-571): clears the
starting shard, the last guild timestamp and the guild wait count, and stops
the unavailable-guilds interval when one is running. -/
def clearStartingShardState (s : PState) : PState :=
  { s with
    startingGateway := none
    lastGuildTimestamp := none
    guildWaitCount := none
    unavailableGuildsIntervalActive := false }

/-- `Paracord.completeStartup` (part_001 lines 577-585): logs and emits
`PARACORD_STARTUP_COMPLETE`. -/
def completeStartup (s : PState) : PState :=
  { s with events := s.events ++ [PEvent.paracordStartupComplete] }

/-- `Paracord.completeShardStartup` (part_001 lines 552-564): releases the
shard's identify locks (external; no orchestrator state), reads
`this.startingGateway` into `shard`, clears the starting-shard state, then
emits `SHARD_STARTUP_COMPLETE` with `{ shard, forced }`. -/
def completeShardStartup (s : PState) (forced : Bool) : PState :=
  let shard := s.startingGateway
  let s := clearStartingShardState s
  { s with events := s.events ++ [PEvent.shardStartupComplete shard forced] }

/-- `Paracord.checkIfDoneStarting` (part_001 lines 530-550).  A guarded
startup check: only acts when both `startingGateway` and `gatewayWaitCount`
are defined; completes the shard when forced or `guildWaitCount === 0`,
then decrements `gatewayWaitCount` and, exactly when the decrement reaches
zero, completes the whole startup; with a negative `guildWaitCount` it only
logs a warning; otherwise it refreshes `lastGuildTimestamp`. -/
def checkIfDoneStarting (s : PState) (now : Int) (forced : Bool) : PState :=
  match s.startingGateway, s.gatewayWaitCount with
  | some _, some m =>
      if forced || s.guildWaitCount == some 0 then
        let s := completeShardStartup s forced
        let s := { s with gatewayWaitCount := some (m - 1) }
        if m - 1 == 0 then completeStartup s else s
      else if (match s.guildWaitCount with | some c => decide (c < 0) | none => false) then
        s
      else
        { s with lastGuildTimestamp := some now }
  | _, _ => s

/-- JS truthiness of a possibly-undefined number (`undefined` and `0` are
falsy). -/
def truthyOptInt : Option Int → Bool
  | some n => n != 0
  | none => false

/-- `Paracord.startWithUnavailableGuilds`'s guard (part_001 lines 331-334):
`this.startingGateway === gateway && withinTolerance && timedOut`, with the
JS semantics that a comparison against an `undefined` operand is false. -/
def forcesStartup (s : PState) (gateway : Nat) (now : Int) : Bool :=
  let withinTolerance :=
    match s.guildWaitCount, s.unavailableGuildTolerance with
    | some c, some tol => c ≤ tol
    | _, _ => false
  let timedOut :=
    match s.lastGuildTimestamp, s.unavailableGuildWait with
    | some l, some w => l + w * 1000 < now
    | _, _ => false
  s.startingGateway == some gateway && withinTolerance && timedOut

/-- `Paracord.startWithUnavailableGuilds` (part_001 lines 326-339): when the
guard holds, logs a warning and runs `checkIfDoneStarting(true)`. -/
def startWithUnavailableGuilds (s : PState) (gateway : Nat) (now : Int) : PState :=
  if forcesStartup s gateway now then checkIfDoneStarting s now true else s

/-- `Paracord.processGatewayQueue` (part_001 lines 296-324).  One login tick:
when not prevented, the queue is non-empty, no shard is starting, and the
wall clock exceeds the (defined) guard value, shift a gateway off the queue,
assign `safeGatewayIdentifyTimestamp = 10 * SECOND_IN_MILLISECONDS` (the
source stores this constant offset, not `now` plus it), mark it starting and
log it in.  `loginOk` stands for whether `gateway.login()` resolves; on
rejection the starting state is cleared and the gateway is unshifted back.
When login succeeds and both unavailable-guild options are truthy, the
1-second `startWithUnavailableGuilds` interval is installed.  Returns the
new state and the shard id dequeued this tick, if any. -/
def processGatewayQueue (s : PState) (now : Int) (loginOk : Bool) :
    PState × Option Nat :=
  match s.gatewayLoginQueue, s.startingGateway, s.safeGatewayIdentifyTimestamp with
  | gateway :: rest, none, some ts =>
      if !s.preventLogin && now > ts then
        let s := { s with
          gatewayLoginQueue := rest
          safeGatewayIdentifyTimestamp := some (10 * SECOND_IN_MILLISECONDS)
          startingGateway := some gateway }
        if loginOk then
          if truthyOptInt s.unavailableGuildTolerance
              && truthyOptInt s.unavailableGuildWait then
            ({ s with unavailableGuildsIntervalActive := true }, some gateway)
          else
            (s, some gateway)
        else
          let s := clearStartingShardState s
          ({ s with gatewayLoginQueue := gateway :: s.gatewayLoginQueue }, none)
      else (s, none)
  | _, _, _ => (s, none)

/-- The `let emit = data ?? typeof data === 'object' ? objectKeysSnakeToCamel(data) : data`
line of `Paracord.eventHandler` (part_001 line 202).  With `??` binding
tighter than `?:`, a present truthy payload is camel-cased, a present falsy
payload and an undefined payload pass through.  The payload type, its JS
truthiness and `objectKeysSnakeToCamel` are abstract parameters. -/
def computeEmit {Data : Type} (camel : Data → Data) (truthy : Data → Bool)
    (data : Option Data) : Option Data :=
  match data with
  | some d => if truthy d then some (camel d) else some d
  | none => none

/-- Lines 210-220 of `Paracord.eventHandler` (part_001): the startup-window
logic, applied to the state `s` as it stands after the per-event-type
`paracordEvent` handler (if any) has run, with `emit` that handler's result.
When the starting gateway's id equals the event's shard and `guildWaitCount`
is defined: a `GUILD_CREATE` decrements the count, runs the startup check
and returns `undefined`; any other event type returns `undefined` unless
`allowEventsDuringStartup`, in which case the original `data` is returned.
Outside the startup window the computed `emit` is returned. -/
def eventHandlerCore {Data : Type} (s : PState) (eventType : String)
    (emit data : Option Data) (shard : Nat) (now : Int) :
    Option Data × PState :=
  match s.startingGateway, s.guildWaitCount with
  | some g, some n =>
      if g = shard then
        if eventType = "GUILD_CREATE" then
          let s := { s with guildWaitCount := some (n - 1) }
          let s := checkIfDoneStarting s now false
          (none, s)
        else
          (if s.allowEventsDuringStartup then data else none, s)
      else (emit, s)
  | _, _ => (emit, s)

/-- `Paracord.eventHandler` (part_001 lines 201-221).  `handler` is the
looked-up `this.gatewayEvents[eventType]` (code outside src/), modelled as
an optional transform of the payload and the orchestrator state. -/
def eventHandler {Data : Type} (camel : Data → Data) (truthy : Data → Bool)
    (handler : Option (Option Data → Nat → PState → Option Data × PState))
    (eventType : String) (data : Option Data) (shard : Nat) (now : Int)
    (s : PState) : Option Data × PState :=
  let emit := computeEmit camel truthy data
  let es : Option Data × PState :=
    match handler with
    | some f => f data shard s
    | none => (emit, s)
  eventHandlerCore es.2 eventType es.1 data shard now

/-- The per-id validation loop of `Paracord.enqueueGateways` (part_001 lines
347-353): `shards.forEach((s) => { if (s + 1 > shardCount) throw ... })`,
throwing at the first offending id. -/
def validateShardIds (shards : List Nat) (shardCount : Nat) : Except String Unit :=
  match shards with
  | [] => Except.ok ()
  | s :: rest =>
      if s + 1 > shardCount then Except.error "shard id exceeds max shard id"
      else validateShardIds rest shardCount

/-- The guard around that loop (part_001 lines 346-353): the validation runs
only when both `shards` and `shardCount` are supplied. -/
def enqueueGatewaysValidation (shards : Option (List Nat))
    (shardCount : Option Nat) : Except String Unit :=
  match shards, shardCount with
  | some ss, some c => validateShardIds ss c
  | _, _ => Except.ok ()

/-- Modelled from the spec: the body of `coerceTokenToBotLike` is not under
src/ (only its declaration, part_002 line 42).  Spec section 6, token
handling: if the credential is not already prefixed with the bot scheme
(`Bot `), prepend it.  Being prefixed is expressed on the character
lists. -/
def coerceTokenToBotLike (token : String) : String :=
  if "Bot ".data.isPrefixOf token.data then token else "Bot " ++ token

/-- `Paracord.validateParams` (part_001 lines 117-121): throws when the
token is `undefined`. -/
def validateParams (token : Option String) : Except String Unit :=
  match token with
  | none => Except.error "client requires a token"
  | some _ => Except.ok ()

/-- The token-handling slice of the `Paracord` constructor (part_001 lines
129-133): validate, then store `coerceTokenToBotLike(token)`. -/
def paracordConstructorToken (token : Option String) : Except String String :=
  match validateParams token, token with
  | Except.error e, _ => Except.error e
  | Except.ok _, some t => Except.ok (coerceTokenToBotLike t)
  | Except.ok _, none => Except.error "client requires a token"

/-!  Rate-limit structures (src/clients/Api/structures and src/unnamed/part_002).  -/

/-- A JS value as far as the `+` operator in `createAssumedRateLimit` is
concerned: a number or a string. -/
inductive JsVal where
  | num : Int → JsVal
  | str : String → JsVal
  deriving DecidableEq, Repr

/-- The string a `JsVal` renders as when concatenated. -/
def JsVal.render : JsVal → String
  | JsVal.num n => toString n
  | JsVal.str s => s

/-- JS `+`: numeric addition on two numbers, string concatenation as soon as
one operand is a string (a `Date` object in `+` context converts to its
string rendering, so `new Date() + n` concatenates). -/
def jsAdd : JsVal → JsVal → JsVal
  | JsVal.num a, JsVal.num b => JsVal.num (a + b)
  | a, b => JsVal.str (a.render ++ b.render)

/-- A rate-limit template: the most recently observed `(limit, resetAfter)`
pair for a bucket (`RateLimitTemplate`, whose class body is not under src/;
fields per the spec's Template store and its uses in
`RateLimitTemplateMap.createAssumedRateLimit`). -/
structure RateLimitTemplate where
  limit : Int
  resetAfter : Int
  deriving DecidableEq, Repr

/-- The state object handed to the `RateLimit` constructor by
`createAssumedRateLimit`: `{ remaining, resetTimestamp, limit, resetAfter }`
with `resetTimestamp` whatever the JS expression produced. -/
structure RateLimitStateJs where
  remaining : Int
  resetTimestamp : JsVal
  limit : Int
  resetAfter : Int
  deriving DecidableEq, Repr

/-- Modelled from the spec: the `RateLimit` class body is not under src/.
Spec section 3, Budget: a budget stores the `remaining`, `resetTimestamp`,
`limit` (and duration) fields it is constructed from. -/
structure RateLimitObj where
  remaining : Int
  resetTimestamp : JsVal
  limit : Int
  resetAfter : Int
  deriving DecidableEq, Repr

/-- Modelled from the spec: the `RateLimit` constructor stores the state it
is given (the template argument only seeds later refreshes). -/
def RateLimit.new (state : RateLimitStateJs) (_template : RateLimitTemplate) :
    RateLimitObj :=
  { remaining := state.remaining
    resetTimestamp := state.resetTimestamp
    limit := state.limit
    resetAfter := state.resetAfter }

/-- Association-list lookup standing in for `Map.prototype.get`. -/
def mapGet {V : Type} (m : List (String × V)) (k : String) : Option V :=
  match m with
  | [] => none
  | (k2, v) :: rest => if k2 = k then some v else mapGet rest k

/-- `RateLimitTemplateMap.createAssumedRateLimit`
(RateLimitTemplateMap.ts lines 32-44): look the bucket up; with no template
return `undefined`; otherwise build a rate limit with
`remaining = limit = template.limit` and
`resetTimestamp = new Date() + template.resetAfter` — the source adds the
`Date` object itself, so the JS `+` concatenates its string rendering
(`dateStr`, abstract here) with the number.  `resetAfter` is passed as 0. -/
def createAssumedRateLimit (templates : List (String × RateLimitTemplate))
    (bucket : String) (dateStr : String) : Option RateLimitObj :=
  match mapGet templates bucket with
  | some template =>
      let limit := template.limit
      let remaining := template.limit
      let resetTimestamp := jsAdd (JsVal.str dateStr) (JsVal.num template.resetAfter)
      some (RateLimit.new
        { remaining := remaining, resetTimestamp := resetTimestamp
          limit := limit, resetAfter := 0 } template)
  | none => none

/-- An entry of a `RateLimitMap`, as far as the sweep reads it: its
`expires` timestamp (other fields are irrelevant to and untouched by the
sweep). -/
structure RateLimitEntry where
  expires : Int
  payload : Nat
  deriving DecidableEq, Repr

/-- `RateLimitMap.sweepExpiredRateLimits` (part_002 lines 22-29): iterate
the entries and delete those with `expires < now` (the iteration only ever
deletes the entry at hand, so the net effect is a strict filter). -/
def sweepExpiredRateLimits (now : Int) :
    List (String × RateLimitEntry) → List (String × RateLimitEntry)
  | [] => []
  | (k, v) :: rest =>
      if v.expires < now then sweepExpiredRateLimits now rest
      else (k, v) :: sweepExpiredRateLimits now rest

/-- `RateLimitMap.startSweepInterval` (part_002 lines 30-32): the sweep is
scheduled with period `API_RATE_LIMIT_EXPIRE_AFTER_MILLISECONDS`. -/
def startSweepIntervalPeriod : Int := API_RATE_LIMIT_EXPIRE_AFTER_MILLISECONDS

/-- The rate-limit state record destructured by the compiled
`RateLimitMap.upsert` in RateLimitTemplateMap.ts:
`{ remaining, limit, resetTimestamp, resetAfter }`. -/
structure RLState where
  remaining : Int
  limit : Int
  resetTimestamp : Int
  resetAfter : Int
  deriving DecidableEq, Repr

/-- `Map.prototype.set` on an association list: replace in place when the
key is present, append otherwise. -/
def mapSet {V : Type} (m : List (String × V)) (k : String) (v : V) :
    List (String × V) :=
  match m with
  | [] => [(k, v)]
  | (k2, v2) :: rest =>
      if k2 = k then (k2, v) :: rest else (k2, v2) :: mapSet rest k v

/-- `RateLimitMap.upsert` as compiled in src/unnamed/part_002 (lines 12-21):
`const rateLimit = this.get(key)` is bound before any insertion, so on a
miss the function inserts `new RateLimit(state, template)` but returns the
original binding — `undefined`.  `mk`/`assign` abstract the `RateLimit`
constructor and the in-place `assignIfStricter`. -/
def upsertPart002 {RL : Type} (mk : RLState → RateLimitTemplate → RL)
    (assign : RL → RLState → RL) (m : List (String × RL)) (rateLimitKey : String)
    (state : RLState) (template : RateLimitTemplate) :
    List (String × RL) × Option RL :=
  match mapGet m rateLimitKey with
  | none => (mapSet m rateLimitKey (mk state template), none)
  | some rl =>
      let rl := assign rl state
      (mapSet m rateLimitKey rl, some rl)

/-- `RateLimitMap.upsert` as compiled inside RateLimitTemplateMap.ts (lines
59-72): destructures the incoming state into
`{ remaining, limit, resetTimestamp, resetAfter }`, rebuilds it, and — on a
miss — reassigns `rateLimit` to the newly constructed rate limit before
returning it. -/
def upsertTsFile {RL : Type} (mk : RLState → RateLimitTemplate → RL)
    (assign : RL → RLState → RL) (m : List (String × RL)) (rateLimitKey : String)
    (state : RLState) (template : RateLimitTemplate) :
    List (String × RL) × Option RL :=
  let st : RLState :=
    { remaining := state.remaining, limit := state.limit
      resetTimestamp := state.resetTimestamp, resetAfter := state.resetAfter }
  match mapGet m rateLimitKey with
  | none =>
      let rl := mk st template
      (mapSet m rateLimitKey rl, some rl)
  | some rl =>
      let rl := assign rl st
      (mapSet m rateLimitKey rl, some rl)

/-!  RPC rate-limit service (src/rpc/services/rateLimit/addService.ts).  -/

/-- The fields `RateLimitStateMessage.fromProto` decodes from an Update RPC
request (the message class itself is outside src/; fields per the call site
and the spec's RPC surface). -/
structure RateLimitStateMessage where
  method : String
  url : String
  global : Bool
  bucket : Option String
  limit : Option Int
  remaining : Option Int
  resetAfter : Option Int
  deriving DecidableEq, Repr

/-- The argument tuple of a `rateLimitCache.update` call: the request's
`(method, url)` and a `RateLimitHeaders` built as
`new RateLimitHeaders(global, bucket, limit, remaining, resetAfter)`. -/
structure CacheUpdateCall where
  method : String
  url : String
  global : Bool
  bucket : String
  limit : Option Int
  remaining : Option Int
  resetAfter : Option Int
  deriving DecidableEq, Repr

/-- The `update` handler of the rate-limit RPC service (addService.ts lines
67-108): decode the message; only when `bucket !== undefined` build the
headers and call `rateLimitCache.update`; log; reply `callback(null)`.
Returns the list of cache-update invocations made and the error argument
passed to the callback (`none` models the `null` reply). -/
def rpcUpdateHandler (msg : RateLimitStateMessage) :
    List CacheUpdateCall × Option String :=
  match msg.bucket with
  | some b =>
      ([{ method := msg.method, url := msg.url, global := msg.global
          bucket := b, limit := msg.limit, remaining := msg.remaining
          resetAfter := msg.resetAfter }], none)
  | none => ([], none)

/-!  Theorems, one per claim of the specification check.  -/

/-- Claim C1: the spec says consecutive shard dequeues of the login tick are
at least 10 seconds apart because the guard timestamp is set to now + 10s.
The code instead assigns the constant offset `10 * SECOND_IN_MILLISECONDS`
(10000) to `safeGatewayIdentifyTimestamp`, which any realistic wall-clock
value exceeds: after a first dequeue at t0 = 1600000000000 and the shard
completing (clearing `startingGateway`), the very next tick one second
later dequeues the second shard, violating the 10-second spacing.
(`c1InitialState`: two shards queued, guard initialized, nothing starting.) -/
def c1InitialState : PState :=
  { PState.base with
    gatewayLoginQueue := [0, 1]
    safeGatewayIdentifyTimestamp := some 0 }

/-- Claim C1: two consecutive dequeues of the login tick happen only one
second apart on the code, because the guard is stored as the constant
offset 10000 rather than now + 10s — see the comment above
`c1InitialState`. -/
theorem c1_guard_is_constant_so_dequeues_one_second_apart :
    (processGatewayQueue c1InitialState 1600000000000 true).2 = some 0 ∧
    (processGatewayQueue c1InitialState 1600000000000 true).1.safeGatewayIdentifyTimestamp
      = some (10 * SECOND_IN_MILLISECONDS) ∧
    (processGatewayQueue
      (clearStartingShardState
        (processGatewayQueue c1InitialState 1600000000000 true).1)
      1600000001000 true).2 = some 1 ∧
    ((1600000001000 : Int) - 1600000000000 < 10 * SECOND_IN_MILLISECONDS) := by
  refine ⟨rfl, rfl, rfl, by decide⟩

/-- Claim C2: the spec says `createAssumedRateLimit` returns `undefined`
with no template, and otherwise a budget with `remaining = limit` and
`resetTimestamp = now + resetAfter`.  The first two parts hold, but the
source computes `new Date() + template.resetAfter`, which under JS `+` is
string concatenation of the date's string rendering with the number — the
stored `resetTimestamp` is a string and equals no integer timestamp at
all. -/
theorem c2_assumed_reset_timestamp_is_string_concat :
    createAssumedRateLimit [("abc", { limit := 5, resetAfter := 1000 })]
        "missing" "Mon Oct 12 2026" = none ∧
    ∃ rl, createAssumedRateLimit [("abc", { limit := 5, resetAfter := 1000 })]
        "abc" "Mon Oct 12 2026" = some rl ∧
      rl.remaining = 5 ∧ rl.remaining = rl.limit ∧
      rl.resetTimestamp = JsVal.str "Mon Oct 12 20261000" ∧
      ∀ t : Int, rl.resetTimestamp ≠ JsVal.num t := by
  refine ⟨rfl, ⟨_, rfl, rfl, rfl, by decide, ?_⟩⟩
  intro t h
  simp [createAssumedRateLimit, mapGet, jsAdd, RateLimit.new, JsVal.render] at h

/-- Claim C6: with both `shards` and `shardCount` supplied, the per-id
validation of `enqueueGateways` succeeds exactly when every shard id is
strictly below `shardCount`; in particular an id equal to `shardCount` is
rejected. -/
theorem c6_shard_id_validation (shards : List Nat) (shardCount : Nat) :
    (enqueueGatewaysValidation (some shards) (some shardCount) = Except.ok () ↔
      ∀ s ∈ shards, s < shardCount) ∧
    (shardCount ∈ shards →
      enqueueGatewaysValidation (some shards) (some shardCount) ≠ Except.ok ()) := by
  have key : ∀ ss : List Nat, (validateShardIds ss shardCount = Except.ok () ↔
      ∀ s ∈ ss, s < shardCount) := by
    intro ss
    induction ss with
    | nil => simp [validateShardIds]
    | cons a rest ih =>
        by_cases h : a + 1 > shardCount
        · simp [validateShardIds, h]
          intro hall
          omega
        · simp [validateShardIds, h, ih]
          omega
  constructor
  · simpa [enqueueGatewaysValidation] using key shards
  · intro hmem hok
    have := ((key shards).mp (by simpa [enqueueGatewaysValidation] using hok)) shardCount hmem
    omega

/-- Witness for C6 at concrete inputs: ids [0, 1] pass with count 2, while
the id 2 (equal to the count) is rejected. -/
theorem c6_shard_id_validation_witness :
    enqueueGatewaysValidation (some [0, 1]) (some 2) = Except.ok () ∧
    enqueueGatewaysValidation (some [2]) (some 2) ≠ Except.ok () :=
  ⟨(c6_shard_id_validation [0, 1] 2).1.mpr (by decide),
   (c6_shard_id_validation [2] 2).2 (by decide)⟩

/-- Claim C7: the sweep deletes exactly the entries with `expires` strictly
below `now` (one with `expires = now` is retained) and leaves the rest
unchanged, and the sweep interval period is
`API_RATE_LIMIT_EXPIRE_AFTER_MILLISECONDS` = 300000 ms (5 minutes). -/
theorem c7_sweep_exactly_expired (now : Int) (m : List (String × RateLimitEntry)) :
    sweepExpiredRateLimits now m =
      m.filter (fun kv => !decide (kv.2.expires < now)) ∧
    (∀ k v, (k, v) ∈ sweepExpiredRateLimits now m ↔
      (k, v) ∈ m ∧ ¬ v.expires < now) ∧
    (∀ k v, v.expires = now →
      ((k, v) ∈ sweepExpiredRateLimits now m ↔ (k, v) ∈ m)) ∧
    startSweepIntervalPeriod = 300000 := by
  have hfil : sweepExpiredRateLimits now m =
      m.filter (fun kv => !decide (kv.2.expires < now)) := by
    induction m with
    | nil => rfl
    | cons a rest ih =>
        by_cases h : a.2.expires < now <;>
          simp [sweepExpiredRateLimits, h, ih, List.filter]
  have hmem : ∀ k v, (k, v) ∈ sweepExpiredRateLimits now m ↔
      (k, v) ∈ m ∧ ¬ v.expires < now := by
    intro k v
    rw [hfil]
    simp [List.mem_filter]
  refine ⟨hfil, hmem, ?_, by decide⟩
  intro k v hv
  rw [hmem k v]
  simp [hv]

/-- Witness for C7 at a concrete map: with now = 10, the entry expiring at
9 is evicted while those expiring at 10 and 11 survive. -/
theorem c7_sweep_exactly_expired_witness :
    sweepExpiredRateLimits 10
        [("a", { expires := 9, payload := 0 }),
         ("b", { expires := 10, payload := 1 }),
         ("c", { expires := 11, payload := 2 })] =
      [("b", { expires := 10, payload := 1 }), ("c", { expires := 11, payload := 2 })] ∧
    (("b", ({ expires := 10, payload := 1 } : RateLimitEntry)) ∈
        sweepExpiredRateLimits 10
          [("a", { expires := 9, payload := 0 }),
           ("b", { expires := 10, payload := 1 }),
           ("c", { expires := 11, payload := 2 })] ↔
      ("b", ({ expires := 10, payload := 1 } : RateLimitEntry)) ∈
        [("a", ({ expires := 9, payload := 0 } : RateLimitEntry)),
         ("b", { expires := 10, payload := 1 }),
         ("c", { expires := 11, payload := 2 })]) :=
  ⟨by decide,
   (c7_sweep_exactly_expired 10
      [("a", { expires := 9, payload := 0 }),
       ("b", { expires := 10, payload := 1 }),
       ("c", { expires := 11, payload := 2 })]).2.2.1 "b"
      { expires := 10, payload := 1 } rfl⟩

/-- Claim C8: the Update RPC handler makes no cache update and still replies
with a null error when the decoded `bucket` is undefined; when `bucket` is
defined it invokes the cache update with the decoded
(method, url, global, bucket, limit, remaining, resetAfter) state and
replies with a null error. -/
theorem c8_update_handler_no_bucket_no_op (msg : RateLimitStateMessage) :
    (msg.bucket = none → rpcUpdateHandler msg = ([], none)) ∧
    (∀ b, msg.bucket = some b →
      rpcUpdateHandler msg =
        ([{ method := msg.method, url := msg.url, global := msg.global
            bucket := b, limit := msg.limit, remaining := msg.remaining
            resetAfter := msg.resetAfter }], none)) := by
  constructor
  · intro h
    simp [rpcUpdateHandler, h]
  · intro b h
    simp [rpcUpdateHandler, h]

/-- Witness for C8 at concrete messages: an update with no bucket is a
no-op with a null reply; one with bucket "bkt" records exactly one cache
update carrying the decoded fields. -/
theorem c8_update_handler_no_bucket_no_op_witness :
    rpcUpdateHandler
        { method := "get", url := "u", global := false, bucket := none
          limit := none, remaining := none, resetAfter := none } = ([], none) ∧
    rpcUpdateHandler
        { method := "get", url := "u", global := true, bucket := some "bkt"
          limit := some 5, remaining := some 4, resetAfter := some 1000 } =
      ([{ method := "get", url := "u", global := true, bucket := "bkt"
          limit := some 5, remaining := some 4, resetAfter := some 1000 }], none) :=
  ⟨(c8_update_handler_no_bucket_no_op
      { method := "get", url := "u", global := false, bucket := none
        limit := none, remaining := none, resetAfter := none }).1 rfl,
   (c8_update_handler_no_bucket_no_op
      { method := "get", url := "u", global := true, bucket := some "bkt"
        limit := some 5, remaining := some 4, resetAfter := some 1000 }).2 "bkt" rfl⟩

/-- Claim C3: while a shard is the starting shard (`startingGateway.id`
equals the event's shard and `guildWaitCount` is defined), a GUILD_CREATE
is suppressed (the handler returns undefined) and the guild wait count is
decremented — the decremented count survives in the state unless the
startup check just completed the shard (count hit zero with the gateway
wait count defined), in which case it is cleared; any other event type
returns undefined unless `allowEventsDuringStartup` is set, in which case
the original event data is returned, the state unchanged. -/
theorem c3_startup_window_event_handling {Data : Type} (s : PState)
    (eventType : String) (emit data : Option Data) (shard : Nat) (now : Int)
    (n : Int) (hg : s.startingGateway = some shard)
    (hc : s.guildWaitCount = some n) :
    (eventType = "GUILD_CREATE" →
      (eventHandlerCore s eventType emit data shard now).1 = none ∧
      (eventHandlerCore s eventType emit data shard now).2.guildWaitCount =
        (if s.gatewayWaitCount ≠ none ∧ n = 1 then none else some (n - 1))) ∧
    (eventType ≠ "GUILD_CREATE" →
      (eventHandlerCore s eventType emit data shard now).1 =
        (if s.allowEventsDuringStartup then data else none) ∧
      (eventHandlerCore s eventType emit data shard now).2 = s) := by
  constructor
  · intro het
    subst het
    simp only [eventHandlerCore, hg, hc, if_pos rfl]
    constructor
    · rfl
    · simp only [checkIfDoneStarting, completeShardStartup,
        clearStartingShardState, completeStartup]
      cases hm : s.gatewayWaitCount with
      | none => simp
      | some m =>
          simp only [hm]
          by_cases hz : n - 1 = 0
          · have hn1 : n = 1 := by omega
            simp [hz, hn1]
            by_cases hmz : m - 1 = 0 <;> simp [hmz]
          · have hn1 : ¬ n = 1 := by omega
            simp only [hn1]
            by_cases hneg : n - 1 < 0 <;> simp [hz, hneg, hn1]
  · intro het
    simp [eventHandlerCore, hg, hc, het]

/-- A concrete startup-window state for the C3 witness: shard 3 is the
starting gateway with 5 guilds awaited. -/
def c3State : PState :=
  { PState.base with
    startingGateway := some 3
    guildWaitCount := some 5 }

/-- Witness for C3 at concrete inputs: in `c3State`, a GUILD_CREATE on
shard 3 is suppressed and the count drops to 4; a MESSAGE_CREATE is
suppressed (events during startup not allowed) with the state unchanged. -/
theorem c3_startup_window_event_handling_witness :
    ((eventHandlerCore c3State "GUILD_CREATE" (some 7) (some 9) 3 0).1 = none ∧
      (eventHandlerCore c3State "GUILD_CREATE" (some (7 : Nat)) (some 9) 3 0).2.guildWaitCount =
        (if c3State.gatewayWaitCount ≠ none ∧ (5 : Int) = 1 then none
          else some (5 - 1))) ∧
    ((eventHandlerCore c3State "MESSAGE_CREATE" (some (7 : Nat)) (some 9) 3 0).1 =
        (if c3State.allowEventsDuringStartup then some 9 else none) ∧
      (eventHandlerCore c3State "MESSAGE_CREATE" (some (7 : Nat)) (some 9) 3 0).2 = c3State) :=
  ⟨(c3_startup_window_event_handling c3State "GUILD_CREATE" (some 7) (some 9) 3 0 5
      rfl rfl).1 rfl,
   (c3_startup_window_event_handling c3State "MESSAGE_CREATE" (some 7) (some 9) 3 0 5
      rfl rfl).2 (by decide)⟩

/-- A starting shard with all guilds received but no defined
`gatewayWaitCount`: the configuration on which claim C4 fails. -/
def c4CounterState : PState :=
  { PState.base with
    startingGateway := some 0
    guildWaitCount := some 0 }

/-- Claim C4 counterexample: with the starting shard present and
`guildWaitCount = 0` but `gatewayWaitCount` undefined (its state after
construction — the constructor never initializes it), the startup check
emits nothing and clears nothing: the claim omits the
`gatewayWaitCount !== undefined` half of the code's guard. -/
theorem c4_counterexample_undefined_gateway_wait :
    checkIfDoneStarting c4CounterState 1000 false = c4CounterState ∧
    (checkIfDoneStarting c4CounterState 1000 false).startingGateway = some 0 ∧
    PEvent.shardStartupComplete (some 0) false ∉
      (checkIfDoneStarting c4CounterState 1000 false).events ∧
    PEvent.shardStartupComplete (some 0) true ∉
      (checkIfDoneStarting c4CounterState 1000 false).events := by
  refine ⟨rfl, rfl, by decide, by decide⟩

/-- Claim C4 as amended: when a startup check runs with a starting shard
present, the remaining-gateway counter defined, and the check forced or
`guildWaitCount` zero, the orchestrator emits SHARD_STARTUP_COMPLETE,
clears the starting-shard state, decrements the gateway counter, and emits
PARACORD_STARTUP_COMPLETE exactly when that decrement reaches zero. -/
theorem c4_amended_startup_completion (s : PState) (now : Int) (forced : Bool)
    (g : Nat) (m : Int) (hg : s.startingGateway = some g)
    (hm : s.gatewayWaitCount = some m)
    (hdone : forced = true ∨ s.guildWaitCount = some 0) :
    (checkIfDoneStarting s now forced).startingGateway = none ∧
    (checkIfDoneStarting s now forced).guildWaitCount = none ∧
    (checkIfDoneStarting s now forced).lastGuildTimestamp = none ∧
    (checkIfDoneStarting s now forced).gatewayWaitCount = some (m - 1) ∧
    (checkIfDoneStarting s now forced).events =
      s.events ++ PEvent.shardStartupComplete (some g) forced ::
        (if m = 1 then [PEvent.paracordStartupComplete] else []) := by
  have hguard : (forced || s.guildWaitCount == some 0) = true := by
    rcases hdone with h | h
    · simp [h]
    · simp [h]
  simp only [checkIfDoneStarting, hg, hm, hguard, if_pos,
    completeShardStartup, clearStartingShardState, completeStartup]
  by_cases hz : m - 1 = 0
  · have h1 : m = 1 := by omega
    simp [hz, h1, hg]
  · have h1 : ¬ m = 1 := by omega
    simp [hz, h1, hg]

/-- A concrete completing state for the C4 witness: shard 2 starting, zero
guilds awaited, one gateway left. -/
def c4AmendedState : PState :=
  { PState.base with
    startingGateway := some 2
    gatewayWaitCount := some 1
    guildWaitCount := some 0 }

/-- Witness for the amended C4 at a concrete state: the last gateway
completing emits both SHARD_STARTUP_COMPLETE and
PARACORD_STARTUP_COMPLETE and clears the starting-shard fields. -/
theorem c4_amended_startup_completion_witness :
    (checkIfDoneStarting c4AmendedState 1000 false).startingGateway = none ∧
    (checkIfDoneStarting c4AmendedState 1000 false).guildWaitCount = none ∧
    (checkIfDoneStarting c4AmendedState 1000 false).lastGuildTimestamp = none ∧
    (checkIfDoneStarting c4AmendedState 1000 false).gatewayWaitCount = some (1 - 1) ∧
    (checkIfDoneStarting c4AmendedState 1000 false).events =
      c4AmendedState.events ++ PEvent.shardStartupComplete (some 2) false ::
        (if (1 : Int) = 1 then [PEvent.paracordStartupComplete] else []) :=
  c4_amended_startup_completion c4AmendedState 1000 false 2 1 rfl rfl (Or.inr rfl)

/-- Any event present after a startup check that was not present before is
one of the two completion emissions, and a shard completion added by a
forced check carries `forced = true`. -/
theorem checkIfDoneStarting_new_events (s : PState) (now : Int) (forced : Bool) :
    ∀ e ∈ (checkIfDoneStarting s now forced).events,
      e ∈ s.events ∨ e = PEvent.shardStartupComplete s.startingGateway forced ∨
        e = PEvent.paracordStartupComplete := by
  intro e he
  unfold checkIfDoneStarting at he
  split at he
  · split at he
    · split at he
      · simp only [completeStartup, completeShardStartup,
          clearStartingShardState, List.append_assoc, List.mem_append,
          List.mem_cons, List.mem_singleton, List.not_mem_nil, or_false] at he
        tauto
      · simp only [completeShardStartup, clearStartingShardState,
          List.mem_append, List.mem_singleton] at he
        tauto
    · split at he
      · exact Or.inl he
      · exact Or.inl he
  · exact Or.inl he

/-- Claim C5: the forced-completion guard of `startWithUnavailableGuilds`
holds exactly when the tolerance and wait options are configured, the
checked gateway is still the starting shard, the remaining guild count is
at most the tolerance, and the last GUILD_CREATE is more than
`unavailableGuildWait` seconds old; and any shard completion the call adds
is reported with `forced = true`. -/
theorem c5_forced_completion_iff (s : PState) (gateway : Nat) (now : Int) :
    (forcesStartup s gateway now = true ↔
      ∃ tol w c l, s.unavailableGuildTolerance = some tol ∧
        s.unavailableGuildWait = some w ∧
        s.startingGateway = some gateway ∧
        s.guildWaitCount = some c ∧ c ≤ tol ∧
        s.lastGuildTimestamp = some l ∧ l + w * 1000 < now) ∧
    (∀ sh b, PEvent.shardStartupComplete sh b ∈
        (startWithUnavailableGuilds s gateway now).events →
      PEvent.shardStartupComplete sh b ∈ s.events ∨ b = true) := by
  constructor
  · obtain ⟨pl, q, sg, ts, tol, w, gwc, gw, lt, al, ia, ev⟩ := s
    simp only [forcesStartup]
    cases gwc <;> cases tol <;> cases lt <;> cases w <;> simp [and_assoc]
  · intro sh b hmem
    unfold startWithUnavailableGuilds at hmem
    by_cases hf : forcesStartup s gateway now = true
    · simp only [hf, if_true] at hmem
      rcases checkIfDoneStarting_new_events s now true _ hmem with h | h | h
      · exact Or.inl h
      · injection h with h1 h2
        exact Or.inr h2
      · exact PEvent.noConfusion h
    · simp only [Bool.not_eq_true] at hf
      simp [hf] at hmem
      exact Or.inl hmem

/-- A concrete state for the C5 witness: shard 7 is starting with one guild
left, tolerance 3, wait 2 s, last GUILD_CREATE at t = 0. -/
def c5State : PState :=
  { PState.base with
    startingGateway := some 7
    guildWaitCount := some 1
    unavailableGuildTolerance := some 3
    unavailableGuildWait := some 2
    lastGuildTimestamp := some 0 }

/-- Witness for C5 at a concrete state and time: 20 s after the last
GUILD_CREATE, with 1 ≤ 3 guilds left, the forced-completion guard holds. -/
theorem c5_forced_completion_iff_witness :
    forcesStartup c5State 7 20000 = true :=
  (c5_forced_completion_iff c5State 7 20000).1.mpr
    ⟨3, 2, 1, 0, rfl, rfl, rfl, rfl, by decide, rfl, by decide⟩

/-- Claim C9: constructing the client with an undefined token fails, and a
defined token is stored coerced to the bot scheme: kept as is when already
prefixed with `Bot `, prefixed otherwise. -/
theorem c9_token_validation_and_coercion :
    paracordConstructorToken none = Except.error "client requires a token" ∧
    (∀ t, paracordConstructorToken (some t) = Except.ok (coerceTokenToBotLike t)) ∧
    (∀ t, "Bot ".data.isPrefixOf t.data = true → coerceTokenToBotLike t = t) ∧
    (∀ t, "Bot ".data.isPrefixOf t.data = false →
      coerceTokenToBotLike t = "Bot " ++ t) := by
  refine ⟨rfl, fun t => rfl, fun t h => ?_, fun t h => ?_⟩
  · simp [coerceTokenToBotLike, h]
  · simp [coerceTokenToBotLike, h]

/-- Witness for C9 at concrete tokens: a bare token gains the `Bot `
scheme, an already-coerced one is kept verbatim. -/
theorem c9_token_validation_and_coercion_witness :
    paracordConstructorToken (some "abc123") = Except.ok (coerceTokenToBotLike "abc123") ∧
    coerceTokenToBotLike "Bot abc" = "Bot abc" ∧
    coerceTokenToBotLike "abc123" = "Bot " ++ "abc123" :=
  ⟨c9_token_validation_and_coercion.2.1 "abc123",
   c9_token_validation_and_coercion.2.2.1 "Bot abc" (by decide),
   c9_token_validation_and_coercion.2.2.2 "abc123" (by decide)⟩

/-- Claim C10 counterexample: the two compiled `RateLimitMap.upsert`
versions do not return the same value.  On an empty map (key absent) the
part_002 version binds `const rateLimit = this.get(key)` before inserting
and returns that original binding — `undefined` — while the version inside
RateLimitTemplateMap.ts reassigns and returns the newly created rate
limit.  Instantiated with `RL := Nat` and a constructor returning 0. -/
theorem c10_counterexample_return_value_differs :
    (upsertPart002 (fun _ _ => (0 : Nat)) (fun rl _ => rl) [] "k"
        { remaining := 1, limit := 1, resetTimestamp := 2, resetAfter := 3 }
        { limit := 1, resetAfter := 3 }).2 = none ∧
    (upsertTsFile (fun _ _ => (0 : Nat)) (fun rl _ => rl) [] "k"
        { remaining := 1, limit := 1, resetTimestamp := 2, resetAfter := 3 }
        { limit := 1, resetAfter := 3 }).2 = some 0 ∧
    (upsertPart002 (fun _ _ => (0 : Nat)) (fun rl _ => rl) [] "k"
        { remaining := 1, limit := 1, resetTimestamp := 2, resetAfter := 3 }
        { limit := 1, resetAfter := 3 }).2 ≠
      (upsertTsFile (fun _ _ => (0 : Nat)) (fun rl _ => rl) [] "k"
        { remaining := 1, limit := 1, resetTimestamp := 2, resetAfter := 3 }
        { limit := 1, resetAfter := 3 }).2 := by
  refine ⟨rfl, rfl, by decide⟩

/-- Claim C10 as amended: for every key, incoming state and template (and
any behaviour of the rate-limit constructor `mk` and of `assignIfStricter`
`assign`), the two upsert versions leave the map in the same final state
and return the same value whenever the key is already present; when the
key is absent, the RateLimitTemplateMap.ts version returns the newly
created rate limit while the part_002 version returns undefined. -/
theorem c10_amended_upsert_equivalence {RL : Type}
    (mk : RLState → RateLimitTemplate → RL) (assign : RL → RLState → RL)
    (m : List (String × RL)) (k : String) (state : RLState)
    (template : RateLimitTemplate) :
    (upsertPart002 mk assign m k state template).1 =
      (upsertTsFile mk assign m k state template).1 ∧
    (∀ rl, mapGet m k = some rl →
      (upsertPart002 mk assign m k state template).2 =
        (upsertTsFile mk assign m k state template).2) ∧
    (mapGet m k = none →
      (upsertPart002 mk assign m k state template).2 = none ∧
      (upsertTsFile mk assign m k state template).2 = some (mk state template)) := by
  cases h : mapGet m k <;> simp [upsertPart002, upsertTsFile, h]

/-- Witness for the amended C10 at concrete inputs: on a map holding key
"k" both versions return the stricter-assigned value, and on an empty map
the part_002 version returns none while the other returns the new rate
limit. -/
theorem c10_amended_upsert_equivalence_witness :
    ((upsertPart002 (fun _ _ => (5 : Nat)) (fun rl _ => rl + 1) [("k", 9)] "k"
        { remaining := 1, limit := 1, resetTimestamp := 2, resetAfter := 3 }
        { limit := 1, resetAfter := 3 }).2 =
      (upsertTsFile (fun _ _ => (5 : Nat)) (fun rl _ => rl + 1) [("k", 9)] "k"
        { remaining := 1, limit := 1, resetTimestamp := 2, resetAfter := 3 }
        { limit := 1, resetAfter := 3 }).2) ∧
    ((upsertPart002 (fun _ _ => (5 : Nat)) (fun rl _ => rl + 1) [] "k2"
        { remaining := 1, limit := 1, resetTimestamp := 2, resetAfter := 3 }
        { limit := 1, resetAfter := 3 }).2 = none ∧
      (upsertTsFile (fun _ _ => (5 : Nat)) (fun rl _ => rl + 1) [] "k2"
        { remaining := 1, limit := 1, resetTimestamp := 2, resetAfter := 3 }
        { limit := 1, resetAfter := 3 }).2 = some 5) :=
  ⟨(c10_amended_upsert_equivalence (fun _ _ => (5 : Nat)) (fun rl _ => rl + 1)
      [("k", 9)] "k"
      { remaining := 1, limit := 1, resetTimestamp := 2, resetAfter := 3 }
      { limit := 1, resetAfter := 3 }).2.1 9 rfl,
   (c10_amended_upsert_equivalence (fun _ _ => (5 : Nat)) (fun rl _ => rl + 1)
      [] "k2"
      { remaining := 1, limit := 1, resetTimestamp := 2, resetAfter := 3 }
      { limit := 1, resetAfter := 3 }).2.2 rfl⟩
